import Mathlib

/-!
# CST816D touch-controller driver interface (`working_numpad/cst816d.h`)

The header defines the register map of the controller as preprocessor
constants, the coordinate record `toucht_coords_t`, and declares the two
driver entry points `get_touch_coords` and `touch_init`.

The constants and the record are embedded from the header.  The bodies of
the two entry points are not part of the header; they are modelled from the
written specification and marked as such.
-/

namespace CST816D

/-! ## Constants of the header -/

/-- Header line `#define MAX_TOUCH_MAX_POINTS    1`. -/
def MAX_TOUCH_MAX_POINTS : Nat := 1

/-- Header line `#define TP_I2C_FREQ 400000`. -/
def TP_I2C_FREQ : Nat := 400000

/-- Header line `#define CST816D_ADDR 0x15`. -/
def CST816D_ADDR : Nat := 0x15

/-- Header line `#define CST816D_ID_REG 0xA7`. -/
def CST816D_ID_REG : Nat := 0xA7

/-- Header line `#define CST816D_TOUCH_NUM_REG 0X02`. -/
def CST816D_TOUCH_NUM_REG : Nat := 0x02

/-- Header line `#define CST816D_TOUCH_XH_REG 0x03`. -/
def CST816D_TOUCH_XH_REG : Nat := 0x03

/-- Header line `#define CST816D_TOUCH_XL_REG 0x04`. -/
def CST816D_TOUCH_XL_REG : Nat := 0x04

/-- Header line `#define CST816D_TOUCH_YH_REG 0x05`. -/
def CST816D_TOUCH_YH_REG : Nat := 0x05

/-- Header line `#define CST816D_TOUCH_YL_REG 0x06`. -/
def CST816D_TOUCH_YL_REG : Nat := 0x06

/-! ## The coordinate record -/

/-- Header record `typedef struct { uint16_t x; uint16_t y; } toucht_coords_t;`.
A `uint16_t` is a natural number below `2 ^ 16 = 65536`. -/
structure toucht_coords_t where
  x : Fin 65536
  y : Fin 65536
  deriving DecidableEq, Repr

/-- The six register addresses of the header, identity register first. -/
def registerAddresses : List Nat :=
  [CST816D_ID_REG, CST816D_TOUCH_NUM_REG, CST816D_TOUCH_XH_REG,
   CST816D_TOUCH_XL_REG, CST816D_TOUCH_YH_REG, CST816D_TOUCH_YL_REG]

/-- The register addresses touched by a burst read of `len` bytes that starts
at register `start`: the controller advances the register address by one per
byte. -/
def burstAddresses (start len : Nat) : List Nat :=
  (List.range len).map (fun i => start + i)

/-! ## Bus model and the two entry points

The header only declares `get_touch_coords` and `touch_init`; their bodies are
not in the header.  The definitions below follow the written specification of
the two operations. -/

/-- Modelled from the spec: the two-wire bus as seen by a register read.
`bus addr reg` is the byte answered by the device at address `addr` for
register `reg`, or `none` when the read fails (bus or device not
responding). -/
abbrev Bus := Nat → Nat → Option (Fin 256)

/-- The five bytes of one touch report. -/
structure TouchRegs where
  num : Fin 256
  xh : Fin 256
  xl : Fin 256
  yh : Fin 256
  yl : Fin 256
  deriving DecidableEq, Repr

/-- Modelled from the spec: the read of the touch-count register and the X/Y
high/low registers from the fixed device address (the body of
`get_touch_coords` is missing from the header).  The read succeeds when all
five registers are answered. -/
def readTouchRegs (bus : Bus) : Option TouchRegs :=
  match bus CST816D_ADDR CST816D_TOUCH_NUM_REG with
  | none => none
  | some n =>
    match bus CST816D_ADDR CST816D_TOUCH_XH_REG with
    | none => none
    | some xh =>
      match bus CST816D_ADDR CST816D_TOUCH_XL_REG with
      | none => none
      | some xl =>
        match bus CST816D_ADDR CST816D_TOUCH_YH_REG with
        | none => none
        | some yh =>
          match bus CST816D_ADDR CST816D_TOUCH_YL_REG with
          | none => none
          | some yl => some ⟨n, xh, xl, yh, yl⟩

/-- Modelled from the spec: the body of
`bool get_touch_coords(toucht_coords_t *toucht_coords)`, which is missing from
the header.  The pointed-to record is passed in as `out` and returned next to
the boolean.  The spec does not say how a high and a low byte form a
coordinate, so that step is the parameter `assemble`.  On failure the spec
leaves the record unspecified; the model leaves it as it was. -/
def get_touch_coords (assemble : Fin 256 → Fin 256 → Fin 65536) (bus : Bus)
    (out : toucht_coords_t) : Bool × toucht_coords_t :=
  match readTouchRegs bus with
  | none => (false, out)
  | some r =>
    if r.num.val = 0 then (false, out)
    else (true, { x := assemble r.xh r.xl, y := assemble r.yh r.yl })

/-- Modelled from the spec: the hardware that `touch_init` acts on.  The first
two fields are the environment (does the bus answer once configured, does the
controller answer once reset); the others record what has been configured. -/
structure TouchHw where
  busResponds : Bool
  deviceResponds : Bool
  sdaPin : Option Int
  sclPin : Option Int
  rstPin : Option Int
  intPin : Option Int
  busClock : Option Nat
  resets : Nat
  deriving DecidableEq, Repr

/-- Modelled from the spec: configuring the bus on a data and a clock line at
a clock frequency in hertz. -/
def configureBus (hw : TouchHw) (sda scl : Int) (freq : Nat) : TouchHw :=
  { hw with sdaPin := some sda, sclPin := some scl, busClock := some freq }

/-- Modelled from the spec: resetting the touch controller through its reset
line, with its interrupt line attached. -/
def resetController (hw : TouchHw) (rst irq : Int) : TouchHw :=
  { hw with rstPin := some rst, intPin := some irq, resets := hw.resets + 1 }

/-- Modelled from the spec: the body of
`bool touch_init(int tp_sda, int tp_scl, int tp_rst, int tp_int)`, which is
missing from the header: configure the bus at the fixed clock frequency, reset
the controller, and report whether bus and device respond. -/
def touch_init (hw : TouchHw) (tp_sda tp_scl tp_rst tp_int : Int) :
    Bool × TouchHw :=
  let hw1 := configureBus hw tp_sda tp_scl TP_I2C_FREQ
  let hw2 := resetController hw1 tp_rst tp_int
  (hw2.busResponds && hw2.deviceResponds, hw2)

/-- A coordinate assembled as `high * 256 + low`, used for concrete runs. -/
def assemble16 (hi lo : Fin 256) : Fin 65536 :=
  ⟨hi.val * 256 + lo.val, by have := hi.isLt; have := lo.isLt; omega⟩

/-- A bus on which the controller reports one touch at `(120, 300)`. -/
def sampleBus : Bus := fun addr reg =>
  if addr = 0x15 then
    match reg with
    | 2 => some 1
    | 3 => some 0
    | 4 => some 120
    | 5 => some 1
    | 6 => some 44
    | _ => none
  else none

/-- The bus `sampleBus` with the identity register answering as well. -/
def sampleBusWithId : Bus := fun addr reg =>
  if addr = 0x15 ∧ reg = 0xA7 then some 0xB6 else sampleBus addr reg

/-! ## Theorems -/

/-- C1: the register-map constants have the values of the register map:
device address 0x15 (21), touch-count 0x02, X-high 0x03, X-low 0x04,
Y-high 0x05, Y-low 0x06, identity register 0xA7 (167). -/
theorem register_map_values :
    CST816D_ADDR = 0x15 ∧ CST816D_ADDR = 21 ∧
    CST816D_TOUCH_NUM_REG = 0x02 ∧ CST816D_TOUCH_XH_REG = 0x03 ∧
    CST816D_TOUCH_XL_REG = 0x04 ∧ CST816D_TOUCH_YH_REG = 0x05 ∧
    CST816D_TOUCH_YL_REG = 0x06 ∧
    CST816D_ID_REG = 0xA7 ∧ CST816D_ID_REG = 167 := by
  refine ⟨rfl, rfl, rfl, rfl, rfl, rfl, rfl, rfl, rfl⟩

/-- C2: the bus clock constant is 400 kHz in hertz,
`TP_I2C_FREQ = 400 * 1000 = 400000`. -/
theorem tp_i2c_freq_is_400kHz :
    TP_I2C_FREQ = 400 * 1000 ∧ TP_I2C_FREQ = 400000 :=
  ⟨rfl, rfl⟩

/-- C3: the maximum number of simultaneous touch points is 1. -/
theorem max_touch_points_is_one : MAX_TOUCH_MAX_POINTS = 1 := rfl

/-- C4: `toucht_coords_t` is exactly a pair of unsigned 16-bit fields: the
fields of every value lie in `0 .. 65535`, every pair `(x, y)` in that range
is the field pair of exactly one value, and two values are equal iff their
`x` and their `y` are equal. -/
theorem toucht_coords_t_is_u16_pair (c : toucht_coords_t) (x y : Nat)
    (hx : x ≤ 65535) (hy : y ≤ 65535) :
    (0 ≤ c.x.val ∧ c.x.val ≤ 65535 ∧ 0 ≤ c.y.val ∧ c.y.val ≤ 65535) ∧
    (∃! d : toucht_coords_t, d.x.val = x ∧ d.y.val = y) ∧
    (∀ d : toucht_coords_t, c = d ↔ (c.x = d.x ∧ c.y = d.y)) := by
  refine ⟨⟨Nat.zero_le _, ?_, Nat.zero_le _, ?_⟩, ?_, ?_⟩
  · have := c.x.isLt; omega
  · have := c.y.isLt; omega
  · refine ⟨⟨⟨x, by omega⟩, ⟨y, by omega⟩⟩, ⟨rfl, rfl⟩, ?_⟩
    rintro ⟨dx, dy⟩ ⟨h1, h2⟩
    simp only [toucht_coords_t.mk.injEq]
    exact ⟨Fin.ext h1, Fin.ext h2⟩
  · intro d
    cases c
    cases d
    simp

/-- Witness of C4 at the value `(120, 300)` and the pair `(65535, 0)`. -/
theorem toucht_coords_t_is_u16_pair_witness :
    (65535 ≤ 65535 ∧ 0 ≤ 65535) ∧
    ((0 ≤ (120 : Fin 65536).val ∧ (120 : Fin 65536).val ≤ 65535 ∧
      0 ≤ (300 : Fin 65536).val ∧ (300 : Fin 65536).val ≤ 65535) ∧
     (∃! d : toucht_coords_t, d.x.val = 65535 ∧ d.y.val = 0) ∧
     (∀ d : toucht_coords_t,
        ({ x := 120, y := 300 } : toucht_coords_t) = d ↔
          ((120 : Fin 65536) = d.x ∧ (300 : Fin 65536) = d.y))) :=
  ⟨⟨by decide, by decide⟩,
   toucht_coords_t_is_u16_pair { x := 120, y := 300 } 65535 0
     (by decide) (by decide)⟩

/-- C5 (against the model of the missing body): `get_touch_coords` depends on
the bus only through the touch-count, X-high, X-low, Y-high and Y-low
registers (0x02 .. 0x06) of device address 0x15; it returns `true` exactly
when all five reads succeeded and the touch count is not zero, and then the
record holds the coordinates assembled from the bytes read; its result is a
boolean for every input. -/
theorem get_touch_coords_spec (assemble : Fin 256 → Fin 256 → Fin 65536)
    (bus bus2 : Bus) (out : toucht_coords_t)
    (hagree : ∀ reg ∈ [CST816D_TOUCH_NUM_REG, CST816D_TOUCH_XH_REG,
        CST816D_TOUCH_XL_REG, CST816D_TOUCH_YH_REG, CST816D_TOUCH_YL_REG],
        bus2 CST816D_ADDR reg = bus CST816D_ADDR reg) :
    get_touch_coords assemble bus2 out = get_touch_coords assemble bus out ∧
    ((get_touch_coords assemble bus out).1 = true ↔
      ∃ n xh xl yh yl : Fin 256,
        bus 0x15 0x02 = some n ∧ bus 0x15 0x03 = some xh ∧
        bus 0x15 0x04 = some xl ∧ bus 0x15 0x05 = some yh ∧
        bus 0x15 0x06 = some yl ∧ n.val ≠ 0) ∧
    (∀ n xh xl yh yl : Fin 256,
        bus 0x15 0x02 = some n → bus 0x15 0x03 = some xh →
        bus 0x15 0x04 = some xl → bus 0x15 0x05 = some yh →
        bus 0x15 0x06 = some yl → n.val ≠ 0 →
        get_touch_coords assemble bus out =
          (true, { x := assemble xh xl, y := assemble yh yl })) ∧
    ((get_touch_coords assemble bus out).1 = true ∨
      (get_touch_coords assemble bus out).1 = false) := by
  have h2 := hagree CST816D_TOUCH_NUM_REG (by simp)
  have h3 := hagree CST816D_TOUCH_XH_REG (by simp)
  have h4 := hagree CST816D_TOUCH_XL_REG (by simp)
  have h5 := hagree CST816D_TOUCH_YH_REG (by simp)
  have h6 := hagree CST816D_TOUCH_YL_REG (by simp)
  have hread : readTouchRegs bus2 = readTouchRegs bus := by
    simp only [readTouchRegs, h2, h3, h4, h5, h6]
  have hcases : ∀ b : Bool, b = true ∨ b = false := by
    intro b; cases b <;> simp
  refine ⟨?_, ?_, ?_, hcases _⟩
  · simp only [get_touch_coords, hread]
  · simp only [get_touch_coords, readTouchRegs, CST816D_ADDR,
      CST816D_TOUCH_NUM_REG, CST816D_TOUCH_XH_REG, CST816D_TOUCH_XL_REG,
      CST816D_TOUCH_YH_REG, CST816D_TOUCH_YL_REG]
    cases e2 : bus 0x15 0x02 with
    | none => simp
    | some n =>
      cases e3 : bus 0x15 0x03 with
      | none => simp
      | some xh =>
        cases e4 : bus 0x15 0x04 with
        | none => simp
        | some xl =>
          cases e5 : bus 0x15 0x05 with
          | none => simp
          | some yh =>
            cases e6 : bus 0x15 0x06 with
            | none => simp
            | some yl =>
              by_cases hn : n.val = 0 <;> simp [hn]
  · intro n xh xl yh yl e2 e3 e4 e5 e6 hn
    simp [get_touch_coords, readTouchRegs, CST816D_ADDR,
      CST816D_TOUCH_NUM_REG, CST816D_TOUCH_XH_REG, CST816D_TOUCH_XL_REG,
      CST816D_TOUCH_YH_REG, CST816D_TOUCH_YL_REG, e2, e3, e4, e5, e6, hn]

/-- Witness of C5: on `sampleBus` (one touch, bytes 0, 120, 1, 44) the call
returns `true` with the record `(120, 300)`, and a bus that differs only in
the identity register gives the same result. -/
theorem get_touch_coords_spec_witness :
    (∀ reg ∈ [CST816D_TOUCH_NUM_REG, CST816D_TOUCH_XH_REG,
        CST816D_TOUCH_XL_REG, CST816D_TOUCH_YH_REG, CST816D_TOUCH_YL_REG],
        sampleBusWithId CST816D_ADDR reg = sampleBus CST816D_ADDR reg) ∧
    get_touch_coords assemble16 sampleBusWithId { x := 0, y := 0 } =
      get_touch_coords assemble16 sampleBus { x := 0, y := 0 } ∧
    get_touch_coords assemble16 sampleBus { x := 0, y := 0 } =
      (true, { x := 120, y := 300 }) :=
  ⟨by decide,
   (get_touch_coords_spec assemble16 sampleBus sampleBusWithId
      { x := 0, y := 0 } (by decide)).1,
   (get_touch_coords_spec assemble16 sampleBus sampleBusWithId
      { x := 0, y := 0 } (by decide)).2.2.1 1 0 120 1 44
      rfl rfl rfl rfl rfl (by decide)⟩

/-- C6 (against the model of the missing body): `touch_init`, given the data,
clock, reset and interrupt pins, leaves the bus configured on the data and
clock pins at `TP_I2C_FREQ` (400000 Hz), has reset the controller once through
the reset pin, and returns `true` exactly when bus and device respond, `false`
exactly when the bus or the device does not respond. -/
theorem touch_init_spec (hw : TouchHw) (tp_sda tp_scl tp_rst tp_int : Int) :
    (touch_init hw tp_sda tp_scl tp_rst tp_int).2.busClock = some TP_I2C_FREQ ∧
    (touch_init hw tp_sda tp_scl tp_rst tp_int).2.busClock = some 400000 ∧
    (touch_init hw tp_sda tp_scl tp_rst tp_int).2.sdaPin = some tp_sda ∧
    (touch_init hw tp_sda tp_scl tp_rst tp_int).2.sclPin = some tp_scl ∧
    (touch_init hw tp_sda tp_scl tp_rst tp_int).2.rstPin = some tp_rst ∧
    (touch_init hw tp_sda tp_scl tp_rst tp_int).2.intPin = some tp_int ∧
    (touch_init hw tp_sda tp_scl tp_rst tp_int).2.resets = hw.resets + 1 ∧
    ((touch_init hw tp_sda tp_scl tp_rst tp_int).1 = true ↔
      (hw.busResponds = true ∧ hw.deviceResponds = true)) ∧
    ((touch_init hw tp_sda tp_scl tp_rst tp_int).1 = false ↔
      (hw.busResponds = false ∨ hw.deviceResponds = false)) := by
  refine ⟨rfl, rfl, rfl, rfl, rfl, rfl, rfl, ?_, ?_⟩
  · simp [touch_init, configureBus, resetController]
  · cases hb : hw.busResponds <;> cases hd : hw.deviceResponds <;>
      simp [touch_init, configureBus, resetController, hb, hd]

/-- C7: the five touch data registers are consecutive in the order
touch-count, X-high, X-low, Y-high, Y-low, so a 5-byte burst read starting at
`CST816D_TOUCH_NUM_REG` covers exactly these registers, and none of them is
`CST816D_ID_REG`. -/
theorem touch_registers_consecutive :
    CST816D_TOUCH_XH_REG = CST816D_TOUCH_NUM_REG + 1 ∧
    CST816D_TOUCH_XL_REG = CST816D_TOUCH_XH_REG + 1 ∧
    CST816D_TOUCH_YH_REG = CST816D_TOUCH_XL_REG + 1 ∧
    CST816D_TOUCH_YL_REG = CST816D_TOUCH_YH_REG + 1 ∧
    burstAddresses CST816D_TOUCH_NUM_REG 5 =
      [CST816D_TOUCH_NUM_REG, CST816D_TOUCH_XH_REG, CST816D_TOUCH_XL_REG,
       CST816D_TOUCH_YH_REG, CST816D_TOUCH_YL_REG] ∧
    CST816D_ID_REG ∉ burstAddresses CST816D_TOUCH_NUM_REG 5 ∧
    CST816D_TOUCH_NUM_REG ≠ CST816D_ID_REG ∧
    CST816D_TOUCH_XH_REG ≠ CST816D_ID_REG ∧
    CST816D_TOUCH_XL_REG ≠ CST816D_ID_REG ∧
    CST816D_TOUCH_YH_REG ≠ CST816D_ID_REG ∧
    CST816D_TOUCH_YL_REG ≠ CST816D_ID_REG := by
  refine ⟨rfl, rfl, rfl, rfl, by decide, by decide, by decide, by decide,
    by decide, by decide, by decide⟩

/-- C8: the device address is a valid 7-bit address, each of the six register
addresses fits in one byte, and the six register addresses are pairwise
distinct. -/
theorem addresses_fit_bus_fields :
    CST816D_ADDR < 128 ∧
    CST816D_ID_REG < 256 ∧ CST816D_TOUCH_NUM_REG < 256 ∧
    CST816D_TOUCH_XH_REG < 256 ∧ CST816D_TOUCH_XL_REG < 256 ∧
    CST816D_TOUCH_YH_REG < 256 ∧ CST816D_TOUCH_YL_REG < 256 ∧
    registerAddresses =
      [CST816D_ID_REG, CST816D_TOUCH_NUM_REG, CST816D_TOUCH_XH_REG,
       CST816D_TOUCH_XL_REG, CST816D_TOUCH_YH_REG, CST816D_TOUCH_YL_REG] ∧
    registerAddresses.Pairwise (fun a b => a ≠ b) := by
  refine ⟨by decide, by decide, by decide, by decide, by decide, by decide,
    by decide, rfl, by decide⟩

end CST816D
